import Mathlib

/-!
Shallow embedding of the valuation engine of
`ev_fair_value_app_all_methods_search_autocomplete_w_mystocks.py`.

Python floats are idealised as exact rationals (`ℚ`); `round(x, 2)` is
Python's round-half-to-even, modelled by `round2`.  A Python value that may
be `None` is an `Option`; a `try/except` that swallows an exception and
returns `None` is modelled by the corresponding `none` branch.
-/

/-- Python's `round` to the nearest integer, ties to even, on any ordered
field with a floor. -/
def roundHalfEven {α : Type} [LinearOrderedField α] [FloorRing α] (y : α) : ℤ :=
  if y - ⌊y⌋ < 1 / 2 then ⌊y⌋
  else if 1 / 2 < y - ⌊y⌋ then ⌊y⌋ + 1
  else if ⌊y⌋ % 2 = 0 then ⌊y⌋ else ⌊y⌋ + 1

/-- Python's `round(x, 2)`: round to 2 decimal places, ties to even. -/
def round2 {α : Type} [LinearOrderedField α] [FloorRing α] (x : α) : α :=
  (roundHalfEven (x * 100) : α) / 100

/-- Python truthiness of an optional number: `None` and `0` are falsy
(`if not (ev and ebitda and shares)`, `if low_3y`, ...). -/
def pyTruthy (o : Option ℚ) : Bool :=
  match o with
  | none => false
  | some v => if v = 0 then false else true

/-- Embeds `dcf_valuation` (source lines 31-38).  `eps <= 0` returns `None`;
a zero denominator raises `ZeroDivisionError`, caught by the bare `except`
which returns `None`; any other input reaches the formula unguarded. -/
def dcf_valuation (eps growth_rate discount_rate : ℚ) : Option ℚ :=
  if eps ≤ 0 then none
  else if discount_rate - growth_rate = 0 then none
  else some (round2 (eps * (1 + growth_rate) / (discount_rate - growth_rate)))

/-- Embeds `graham_valuation` (source lines 40-46).  The square root forces
the result into `ℝ`. -/
noncomputable def graham_valuation (eps bvps : ℚ) : Option ℝ :=
  if eps ≤ 0 ∨ bvps ≤ 0 then none
  else some (round2 (Real.sqrt (22.5 * (eps : ℝ) * (bvps : ℝ))))

/-- Embeds `pe_valuation` (source lines 48-54). -/
def pe_valuation (eps pe_mult : ℚ) : Option ℚ :=
  if eps ≤ 0 then none
  else some (round2 (eps * pe_mult))

/-- Embeds `dcf_valuation` called on a possibly absent `eps`:
`None <= 0` raises `TypeError`, caught by the bare `except` → `None`. -/
def dcf_valuationO (eps : Option ℚ) (growth_rate discount_rate : ℚ) : Option ℚ :=
  match eps with
  | none => none
  | some e => dcf_valuation e growth_rate discount_rate

/-- Embeds `graham_valuation` on possibly absent inputs: a `None` operand in
`eps <= 0 or bvps <= 0` raises `TypeError`, caught → `None` (when
`eps <= 0` already holds the guard returns `None` before touching `bvps`,
with the same outcome). -/
noncomputable def graham_valuationO (eps bvps : Option ℚ) : Option ℝ :=
  match eps, bvps with
  | some e, some b => graham_valuation e b
  | _, _ => none

/-- Embeds `pe_valuation` on possibly absent inputs (same `TypeError` →
`except` → `None` path). -/
def pe_valuationO (eps pe_mult : Option ℚ) : Option ℚ :=
  match eps, pe_mult with
  | some e, some r => pe_valuation e r
  | _, _ => none

/-- Embeds `get_fair_value` (source lines 56-73) after the provider lookup:
the four fields of `stock.info` are the arguments.  `if not (ev and ebitda
and shares): return None, None` is Python truthiness; otherwise
`fair_price = ebitda*(1+growth_rate) * (ev/ebitda) / shares`, returned
UNROUNDED together with `current_price` as fetched (possibly `None`). -/
def get_fair_value (ev ebitda shares currentPrice : Option ℚ)
    (growth_rate : ℚ) : Option ℚ × Option ℚ :=
  if pyTruthy ev ∧ pyTruthy ebitda ∧ pyTruthy shares then
    (some (ebitda.getD 0 * (1 + growth_rate) * (ev.getD 0 / ebitda.getD 0)
            / shares.getD 0),
     currentPrice)
  else (none, none)

/-- `underval_pct` of `ev_valuation` (source line 93). -/
def underval_pct (fair cur : ℚ) : ℚ := (fair - cur) / cur * 100

/-- The band assignment of `ev_valuation` (source lines 94-103), a chain of
`if/elif` on the unrounded fair price and undervaluation percentage. -/
def valuationBand (fair cur : ℚ) : String :=
  if fair < 0 ∨ underval_pct fair cur < 5 then "Over Valued"
  else if underval_pct fair cur > 30 then "Deep Discount"
  else if underval_pct fair cur > 20 then "High Value"
  else if underval_pct fair cur > 18 then "Undervalued"
  else "Fair/Premium"

/-- The classifier exactly as claim C2 words it (first match in the order
`<5`, `>30`, `>20`, `>18`, else), with the source's band spellings
(`OverValued` = "Over Valued", `DeepDiscount` = "Deep Discount",
`HighValue` = "High Value", `FairOrPremium` = "Fair/Premium").  Stated from
the claim, to be compared with `valuationBand`. -/
def claimBand (fair cur : ℚ) : String :=
  if underval_pct fair cur < 5 then "Over Valued"
  else if underval_pct fair cur > 30 then "Deep Discount"
  else if underval_pct fair cur > 20 then "High Value"
  else if underval_pct fair cur > 18 then "Undervalued"
  else "Fair/Premium"

/-- Cap-size tier of `ev_valuation` (source lines 85-91):
`market_cap = info.get("marketCap", 0)` defaults an absent value to `0`,
then fixed thresholds. -/
def cap_type (marketCap : Option ℚ) : String :=
  let mc := marketCap.getD 0
  if 200000000000 ≤ mc then "Mega"
  else if 10000000000 ≤ mc then "Large"
  else if 2000000000 ≤ mc then "Mid"
  else "Small"

/-- One row of the 3-year history used by `ev_valuation` (columns `High`
and `Low`). -/
structure DayBar where
  high : ℚ
  low : ℚ
deriving DecidableEq

/-- `hist["High"].max() if not hist.empty else None` (source line 104). -/
def high_3y (hist : List DayBar) : Option ℚ := (hist.map DayBar.high).max?

/-- `hist["Low"].min() if not hist.empty else None` (source line 105). -/
def low_3y (hist : List DayBar) : Option ℚ := (hist.map DayBar.low).min?

/-- `entry_price = round(low_3y * 1.05, 2) if low_3y else "N/A"`
(source line 106); `none` stands for `"N/A"`, and the guard is Python
truthiness of `low_3y`. -/
def entry_price (hist : List DayBar) : Option ℚ :=
  if pyTruthy (low_3y hist) then some (round2 ((low_3y hist).getD 0 * (105 / 100)))
  else none

/-- `exit_price = round(high_3y * 0.95, 2) if high_3y else "N/A"`
(source line 107). -/
def exit_price (hist : List DayBar) : Option ℚ :=
  if pyTruthy (high_3y hist) then some (round2 ((high_3y hist).getD 0 * (95 / 100)))
  else none

/-- The tab1 composite (source lines 200-236): when `ev_valuation` produced
no EV estimate, `ev_val` is set to `0` (line 204) — so it is always a
number — and `combined_val` is computed iff the four slider weights sum to
100 and none of the four values `is None`. -/
def tab1CombinedVal (evOpt dcfv gv pv : Option ℚ) (w1 w2 w3 w4 : ℚ) : Option ℚ :=
  let ev_val : Option ℚ := some (evOpt.getD 0)
  if (w1 + w2 + w3 + w4 = 100) ∧ ev_val.isSome ∧ dcfv.isSome ∧ gv.isSome ∧ pv.isSome then
    some (round2 ((ev_val.getD 0 * w1 + dcfv.getD 0 * w2 + gv.getD 0 * w3
                    + pv.getD 0 * w4) / 100))
  else none

/-- The tab4 composite (source lines 333-374): if the weights do not sum to
100 only a warning is shown (no value); otherwise the weights are divided
by 100, the EV estimate passes the truthiness filter of line 358
(`result.get("Market Value (EV)")` falsy → `None`), and the combined value
is computed only when all four parts are non-`None`. -/
def tab4CombinedVal (resultEv dcfv gv pv : Option ℚ) (w1 w2 w3 w4 : ℚ) : Option ℚ :=
  if w1 + w2 + w3 + w4 ≠ 100 then none
  else
    let ev_val : Option ℚ := if pyTruthy resultEv then resultEv else none
    if ev_val.isSome ∧ dcfv.isSome ∧ gv.isSome ∧ pv.isSome then
      some (round2 (ev_val.getD 0 * (w1 / 100) + dcfv.getD 0 * (w2 / 100)
                     + gv.getD 0 * (w3 / 100) + pv.getD 0 * (w4 / 100)))
    else none

/-- The expected-return percentage from a combined fair value
(source lines 255 and 371):
`round(((combined - current_price) / current_price) * 100, 2)`.
An absent current price yields no value (tab4 skips the ticker at line 355,
tab1 aborts rendering with an uncaught `TypeError`), and a zero current
price raises `ZeroDivisionError` (caught per ticker in tab4), so neither
produces a number. -/
def expectedReturnPct (combined : ℚ) (currentPrice : Option ℚ) : Option ℚ :=
  match currentPrice with
  | none => none
  | some p => if p = 0 then none else some (round2 ((combined - p) / p * 100))

/-! ## Helper lemmas -/

theorem roundHalfEven_nonneg {α : Type} [LinearOrderedField α] [FloorRing α]
    {y : α} (h : 0 ≤ y) : 0 ≤ roundHalfEven y := by
  have hf : (0 : ℤ) ≤ ⌊y⌋ := Int.floor_nonneg.mpr h
  unfold roundHalfEven
  split_ifs <;> omega

theorem round2_nonneg {α : Type} [LinearOrderedField α] [FloorRing α]
    {x : α} (h : 0 ≤ x) : 0 ≤ round2 x := by
  have h100 : (0 : α) ≤ x * 100 := by positivity
  have hr : (0 : α) ≤ (roundHalfEven (x * 100) : α) := by
    exact_mod_cast roundHalfEven_nonneg h100
  unfold round2
  exact div_nonneg hr (by norm_num)

/-! ## Claim theorems -/

/-- Claim C1: the claim says the DCF valuation is unavailable whenever
`discountRate ≤ growthRate`.  The code only returns `None` at
`discountRate = growthRate` (a caught `ZeroDivisionError`); for
`discountRate < growthRate` it divides by the negative denominator and
returns a negative estimate: at `eps = 10`, `growthRate = 0.08`,
`discountRate = 0.07` it yields `-1080.00`.  The claim's positive example
`DCF(10, 0.08, 0.10) = 540.00` does hold. -/
theorem C1_code_eval :
    dcf_valuation 10 (8 / 100) (10 / 100) = some 540
    ∧ dcf_valuation 10 (8 / 100) (8 / 100) = none
    ∧ dcf_valuation 10 (8 / 100) (7 / 100) = some (-1080) := by
  refine ⟨?_, ?_, ?_⟩ <;> norm_num [dcf_valuation, round2, roundHalfEven]

/-- Claim C2: for positive fair and current prices the source's band chain
(which additionally tests `fair_price < 0` in its first branch) agrees with
the claim's first-match policy `<5 / >30 / >20 / >18 / else`. -/
theorem C2_classifier_refines (fair cur : ℚ) (hf : 0 < fair) (hc : 0 < cur) :
    valuationBand fair cur = claimBand fair cur := by
  have h : ¬ fair < 0 := not_lt.mpr hf.le
  simp only [valuationBand, claimBand, h, false_or]

/-- Witness for C2 at `fairPrice = 120`, `currentPrice = 100`. -/
theorem C2_classifier_refines_witness :
    (0 : ℚ) < 120 ∧ (0 : ℚ) < 100 ∧ valuationBand 120 100 = claimBand 120 100 :=
  ⟨by norm_num, by norm_num, C2_classifier_refines 120 100 (by norm_num) (by norm_num)⟩

/-- Claim C3: in tab1 an unavailable EV estimate is replaced by `0`
(source line 204), after which the strict composite is computed from the
partial set: with `dcf = 10`, `graham = 20`, `pe = 30` and weights
`30/30/20/20` the code produces `13.00` instead of reporting the composite
unavailable.  tab4, by contrast, does return unavailable on the same
inputs, as the claim demands. -/
theorem C3_tab1_partial_composite :
    tab1CombinedVal none (some 10) (some 20) (some 30) 30 30 20 20 = some 13
    ∧ tab4CombinedVal none (some 10) (some 20) (some 30) 30 30 20 20 = none := by
  constructor
  · norm_num [tab1CombinedVal, round2, roundHalfEven]
  · norm_num [tab4CombinedVal, pyTruthy]

/-- Counterexample to claim C4: the claim quantifies over all numeric
inputs, but the PE formula with a negative multiplier returns `-15`, and
the unguarded DCF denominator returns `-11` when `discountRate <
growthRate` and `-0.5` when `growthRate < -1` — all present and negative. -/
theorem C4_counterexample :
    pe_valuation 5 (-3) = some (-15)
    ∧ dcf_valuation 1 (1 / 10) 0 = some (-11)
    ∧ dcf_valuation 1 (-2) 0 = some (-1 / 2)
    ∧ ((-15 : ℚ) < 0 ∧ (-11 : ℚ) < 0 ∧ (-1 / 2 : ℚ) < 0) := by
  refine ⟨?_, ?_, ?_, by norm_num⟩ <;>
    norm_num [pe_valuation, dcf_valuation, round2, roundHalfEven]

/-- Claim C4, amended: a present DCF estimate is non-negative provided
`-1 ≤ growthRate < discountRate`; a present Graham estimate is always
non-negative; a present PE estimate is non-negative provided the PE ratio
is non-negative.  (`Option.getD 0` reads "the value when present, else 0",
so each conjunct says the formula never returns a negative number under
its side condition.) -/
theorem C4_nonneg_amended :
    (∀ eps g d : ℚ, -1 ≤ g → g < d → 0 ≤ (dcf_valuation eps g d).getD 0)
    ∧ (∀ eps bvps : ℚ, 0 ≤ (graham_valuation eps bvps).getD 0)
    ∧ (∀ eps r : ℚ, 0 ≤ r → 0 ≤ (pe_valuation eps r).getD 0) := by
  refine ⟨?_, ?_, ?_⟩
  · intro eps g d hg hgd
    unfold dcf_valuation
    split_ifs with h1 h2
    · simp
    · simp
    · simp only [Option.getD_some]
      apply round2_nonneg
      apply div_nonneg
      · exact mul_nonneg (le_of_lt (not_le.mp h1)) (by linarith)
      · linarith
  · intro eps bvps
    unfold graham_valuation
    split_ifs with h1
    · simp
    · simp only [Option.getD_some]
      exact round2_nonneg (Real.sqrt_nonneg _)
  · intro eps r hr
    unfold pe_valuation
    split_ifs with h1
    · simp
    · simp only [Option.getD_some]
      exact round2_nonneg (mul_nonneg (le_of_lt (not_le.mp h1)) hr)

/-- Witness for the amended C4 at the app's default parameters. -/
theorem C4_nonneg_witness :
    ((-1 : ℚ) ≤ 8 / 100 ∧ (8 / 100 : ℚ) < 10 / 100
      ∧ 0 ≤ (dcf_valuation 10 (8 / 100) (10 / 100)).getD 0)
    ∧ 0 ≤ (graham_valuation 4 20).getD 0
    ∧ ((0 : ℚ) ≤ 15 ∧ 0 ≤ (pe_valuation 5 15).getD 0) :=
  ⟨⟨by norm_num, by norm_num,
    C4_nonneg_amended.1 10 (8 / 100) (10 / 100) (by norm_num) (by norm_num)⟩,
   C4_nonneg_amended.2.1 4 20,
   ⟨by norm_num, C4_nonneg_amended.2.2 5 15 (by norm_num)⟩⟩

/-- Counterexample to claim C5: `get_fair_value` returns the fair price
UNROUNDED.  At `enterpriseValue = 1000`, `ebitda = 3`, `sharesOutstanding
= 7`, `growth = 0.10` it returns `1100/7 = 157.142857...`, which differs
from the 2-decimal rounding the claim asserts. -/
theorem C5_counterexample :
    (get_fair_value (some 1000) (some 3) (some 7) (some 1) (1 / 10)).1 = some (1100 / 7)
    ∧ (1100 / 7 : ℚ) ≠ round2 (1100 / 7) := by
  constructor
  · norm_num [get_fair_value, pyTruthy]
  · norm_num [round2, roundHalfEven]

/-- Claim C5, amended: the EV-based valuation returns the unavailable pair
`(None, None)` when any of `enterpriseValue`, `ebitda`, `sharesOutstanding`
is absent or zero; otherwise it returns the UNROUNDED
`ebitda × (1+growthRate) × (enterpriseValue/ebitda) / sharesOutstanding`
together with the fetched current price (rounding to 2 decimals happens
downstream, in the snapshot of `ev_valuation`); the claim's example
`EVBased(1000, 100, 50, 0.10)` yields exactly `22`, already 2-decimal. -/
theorem C5_ev_amended :
    (∀ (ev eb sh cur : Option ℚ) (g : ℚ),
      pyTruthy ev = false ∨ pyTruthy eb = false ∨ pyTruthy sh = false →
      get_fair_value ev eb sh cur g = (none, none))
    ∧ (∀ (v e s : ℚ) (cur : Option ℚ) (g : ℚ), v ≠ 0 → e ≠ 0 → s ≠ 0 →
        get_fair_value (some v) (some e) (some s) cur g
          = (some (e * (1 + g) * (v / e) / s), cur))
    ∧ get_fair_value (some 1000) (some 100) (some 50) (some 99) (1 / 10)
        = (some 22, some 99) := by
  refine ⟨?_, ?_, ?_⟩
  · intro ev eb sh cur g h
    unfold get_fair_value
    rcases h with h | h | h <;> simp [h]
  · intro v e s cur g hv he hs
    simp [get_fair_value, pyTruthy, hv, he, hs]
  · norm_num [get_fair_value, pyTruthy]

/-- Witness for the amended C5 on small concrete inputs. -/
theorem C5_ev_witness :
    (5 : ℚ) ≠ 0 ∧ (2 : ℚ) ≠ 0 ∧ (4 : ℚ) ≠ 0
    ∧ get_fair_value (some 5) (some 2) (some 4) (some 7) (1 / 2)
        = (some (2 * (1 + 1 / 2) * (5 / 2) / 4), some 7) :=
  ⟨by norm_num, by norm_num, by norm_num,
   C5_ev_amended.2.1 5 2 4 (some 7) (1 / 2) (by norm_num) (by norm_num) (by norm_num)⟩

/-- Counterexample to claim C6: at `fairPrice = 130`, `currentPrice = 100`
the percentage is exactly 30, and the classifier assigns "High Value" (the
`> 20` branch fires before `> 18` is ever reached), not "Undervalued" as
the claim asserts. -/
theorem C6_counterexample :
    valuationBand 130 100 = "High Value" ∧ valuationBand 130 100 ≠ "Undervalued" := by
  have h : valuationBand 130 100 = "High Value" := by
    norm_num [valuationBand, underval_pct]
  exact ⟨h, by rw [h]; decide⟩

/-- Claim C6, amended: at the exact boundary `undervaluedPct = 30` (for
example `fairPrice = 130`, `currentPrice = 100`) the classifier assigns
band "High Value" — `> 30` is false at exactly 30 so it is not
"Deep Discount", but `> 20` already matches before the `> 18` branch. -/
theorem C6_boundary_amended :
    underval_pct 130 100 = 30
    ∧ valuationBand 130 100 = "High Value"
    ∧ valuationBand 130 100 ≠ "Deep Discount" := by
  have h : valuationBand 130 100 = "High Value" := by
    norm_num [valuationBand, underval_pct]
  exact ⟨by norm_num [underval_pct], h, by rw [h]; decide⟩

/-- Claim C7: when the four weights sum to 100 and all four estimates are
present (for tab4's EV slot, present means a non-zero value, per the
truthiness filter of source line 358), both composites equal
`round((ev×w_ev + dcf×w_dcf + graham×w_graham + pe×w_pe) / 100, 2)`, and
the expected return equals
`round((combined − currentPrice) / currentPrice × 100, 2)` whenever the
current price is available (non-`None`, non-zero division). -/
theorem C7_combined (ev d g p c cur w1 w2 w3 w4 : ℚ)
    (hw : w1 + w2 + w3 + w4 = 100) (hev : ev ≠ 0) (hcur : cur ≠ 0) :
    tab1CombinedVal (some ev) (some d) (some g) (some p) w1 w2 w3 w4
      = some (round2 ((ev * w1 + d * w2 + g * w3 + p * w4) / 100))
    ∧ tab4CombinedVal (some ev) (some d) (some g) (some p) w1 w2 w3 w4
      = some (round2 ((ev * w1 + d * w2 + g * w3 + p * w4) / 100))
    ∧ expectedReturnPct c (some cur) = some (round2 ((c - cur) / cur * 100)) := by
  refine ⟨?_, ?_, ?_⟩
  · simp [tab1CombinedVal, hw]
  · simp [tab4CombinedVal, hw, pyTruthy, hev]
    congr 1
    ring
  · simp [expectedReturnPct, hcur]

/-- Witness for C7 at weights 40/30/10/20 and estimates 5, 6, 7, 8. -/
theorem C7_combined_witness :
    (40 : ℚ) + 30 + 10 + 20 = 100 ∧ (5 : ℚ) ≠ 0 ∧ (3 : ℚ) ≠ 0
    ∧ (tab1CombinedVal (some 5) (some 6) (some 7) (some 8) 40 30 10 20
         = some (round2 ((5 * 40 + 6 * 30 + 7 * 10 + 8 * 20 : ℚ) / 100))
       ∧ tab4CombinedVal (some 5) (some 6) (some 7) (some 8) 40 30 10 20
         = some (round2 ((5 * 40 + 6 * 30 + 7 * 10 + 8 * 20 : ℚ) / 100))
       ∧ expectedReturnPct 9 (some 3) = some (round2 (((9 : ℚ) - 3) / 3 * 100))) :=
  ⟨by norm_num, by norm_num, by norm_num,
   C7_combined 5 6 7 8 9 3 40 30 10 20 (by norm_num) (by norm_num) (by norm_num)⟩

/-- Claim C8: the three per-share formulas are total in the embedding (every
Python exception path is a caught `except` returning `None`), an absent
input always propagates to `None` in every argument position, and on
present inputs they compute the guarded formulas — never a fabricated
default. -/
theorem C8_totality :
    (∀ g d : ℚ, dcf_valuationO none g d = none)
    ∧ (∀ b : Option ℚ, graham_valuationO none b = none)
    ∧ (∀ e : Option ℚ, graham_valuationO e none = none)
    ∧ (∀ r : Option ℚ, pe_valuationO none r = none)
    ∧ (∀ e : Option ℚ, pe_valuationO e none = none)
    ∧ (∀ (e : ℚ) (g d : ℚ), dcf_valuationO (some e) g d = dcf_valuation e g d)
    ∧ (∀ e b : ℚ, graham_valuationO (some e) (some b) = graham_valuation e b)
    ∧ (∀ e r : ℚ, pe_valuationO (some e) (some r) = pe_valuation e r) := by
  refine ⟨fun g d => rfl, ?_, ?_, ?_, ?_, fun e g d => rfl, fun e b => rfl, fun e r => rfl⟩
  · intro b; cases b <;> rfl
  · intro e; cases e <;> rfl
  · intro r; cases r <;> rfl
  · intro e; cases e <;> rfl

/-- Counterexample to claim C9: with `marketCap` absent the snapshot's tier
is "Small" (the source defaults the missing value to 0), not "Unknown". -/
theorem C9_counterexample :
    cap_type none = "Small" ∧ cap_type none ≠ "Unknown" := by
  have h : cap_type none = "Small" := by norm_num [cap_type]
  exact ⟨h, by rw [h]; decide⟩

/-- Claim C9, amended: the tier thresholds are as claimed (≥ 200 billion →
Mega, ≥ 10 billion → Large, ≥ 2 billion → Mid, else Small), but an absent
market capitalization defaults to 0 and therefore lands in "Small", not
"Unknown". -/
theorem C9_cap_amended :
    (∀ mc : ℚ, 200000000000 ≤ mc → cap_type (some mc) = "Mega")
    ∧ (∀ mc : ℚ, 10000000000 ≤ mc → mc < 200000000000 → cap_type (some mc) = "Large")
    ∧ (∀ mc : ℚ, 2000000000 ≤ mc → mc < 10000000000 → cap_type (some mc) = "Mid")
    ∧ (∀ mc : ℚ, mc < 2000000000 → cap_type (some mc) = "Small")
    ∧ cap_type none = "Small" := by
  refine ⟨?_, ?_, ?_, ?_, by norm_num [cap_type]⟩
  · intro mc h
    simp [cap_type, h]
  · intro mc h1 h2
    have h3 : ¬ (200000000000 : ℚ) ≤ mc := not_le.mpr h2
    simp [cap_type, h1, h3]
  · intro mc h1 h2
    have h3 : ¬ (200000000000 : ℚ) ≤ mc := not_le.mpr (by linarith)
    have h4 : ¬ (10000000000 : ℚ) ≤ mc := not_le.mpr h2
    simp [cap_type, h1, h3, h4]
  · intro mc h1
    have h2 : ¬ (200000000000 : ℚ) ≤ mc := not_le.mpr (by linarith)
    have h3 : ¬ (10000000000 : ℚ) ≤ mc := not_le.mpr (by linarith)
    have h4 : ¬ (2000000000 : ℚ) ≤ mc := not_le.mpr h1
    simp [cap_type, h2, h3, h4]

/-- Witness for the amended C9 in the "Large" band. -/
theorem C9_cap_witness :
    (10000000000 : ℚ) ≤ 50000000000 ∧ (50000000000 : ℚ) < 200000000000
    ∧ cap_type (some 50000000000) = "Large" :=
  ⟨by norm_num, by norm_num,
   C9_cap_amended.2.1 50000000000 (by norm_num) (by norm_num)⟩

/-- Claim C10: the snapshot's entry and exit prices are unavailable not
only on an empty 3-year history but also whenever the minimum low
(respectively maximum high) is exactly 0 — the Python truthiness guard
`if low_3y` / `if high_3y` treats the zero extreme like a missing one. -/
theorem C10_entry_exit :
    (∀ hist : List DayBar, low_3y hist = some 0 → entry_price hist = none)
    ∧ (∀ hist : List DayBar, high_3y hist = some 0 → exit_price hist = none)
    ∧ entry_price [] = none ∧ exit_price [] = none := by
  refine ⟨?_, ?_, ?_, ?_⟩
  · intro hist h; simp [entry_price, h, pyTruthy]
  · intro hist h; simp [exit_price, h, pyTruthy]
  · simp [entry_price, low_3y, pyTruthy]
  · simp [exit_price, high_3y, pyTruthy]

/-- Witness for C10: a one-day history whose low is exactly 0. -/
theorem C10_entry_exit_witness :
    low_3y [{ high := 5, low := 0 }] = some 0
    ∧ entry_price [{ high := 5, low := 0 }] = none :=
  ⟨rfl, C10_entry_exit.1 [{ high := 5, low := 0 }] rfl⟩
